import Mathlib

/-!
Shallow embedding of the authentication module of `teams-frontend`:
the token store (`TokenService`, backed by `localStorage`) and the
session coordinator (`AuthService`).  JavaScript numbers read back from
storage are modelled as `NumVal` (null / NaN / integer); `Date.now()` is
passed explicitly as an integer number of milliseconds; each network
call's outcome is passed explicitly and the HTTP requests an operation
issues are returned as a list of request descriptors.
-/

/-- A JavaScript `number | null` value as returned by `getTokenExpiry`:
absent (`null`), not-a-number (`NaN`), or an integer. -/
inductive NumVal where
  | null
  | nan
  | num (x : Int)
  deriving DecidableEq, Repr

/-- JavaScript truthiness of a `number | null` value: `null`, `NaN` and `0`
are falsy, every other number is truthy. -/
def jsFalsyNum : NumVal → Bool
  | .null => true
  | .nan => true
  | .num x => x == 0

/-- JavaScript `a >= b` where `b` is a `number | null` value: comparison
with `NaN` is `false`; `null` coerces to `0`. -/
def jsGEnum (a : Int) : NumVal → Bool
  | .null => decide (a ≥ 0)
  | .nan => false
  | .num x => decide (a ≥ x)

/-- JavaScript truthiness of a `string | null` value: `null` and the empty
string are falsy. -/
def jsTruthyStr : Option String → Bool
  | none => false
  | some t => t ≠ ""

/-- The decimal digit characters `0`..`9`. -/
def isDigitChar (c : Char) : Bool := 48 ≤ c.toNat && c.toNat ≤ 57

/-- Whitespace skipped by JavaScript `parseInt`. -/
def isSpaceChar (c : Char) : Bool := c == ' ' || c == '\t' || c == '\n' || c == '\r'

/-- The character for a decimal digit value. -/
def digitChar (d : Nat) : Char := Char.ofNat (48 + d)

/-- The decimal digit value of a digit character. -/
def charDigitVal (c : Char) : Nat := c.toNat - 48

/-- Value of a big-endian list of digit characters, as accumulated
left-to-right by decimal positional reading. -/
def digitsVal (ds : List Char) : Nat := ds.foldl (fun a c => 10 * a + charDigitVal c) 0

/-- Parse the longest decimal-digit prefix of a character list; `none`
when there is no leading digit (JavaScript `NaN`). -/
def parseDigits (cs : List Char) : Option Nat :=
  let ds := cs.takeWhile isDigitChar
  if ds.isEmpty then none else some (digitsVal ds)

/-- Sign handling of JavaScript `parseInt`: one optional leading `-` or `+`,
then the longest digit run; `none` models the `NaN` result. -/
def parseSigned : List Char → Option Int
  | [] => none
  | c :: rest =>
    if c = '-' then (parseDigits rest).map (fun n : Nat => -(n : Int))
    else if c = '+' then (parseDigits rest).map (fun n : Nat => (n : Int))
    else (parseDigits (c :: rest)).map (fun n : Nat => (n : Int))

/-- JavaScript `parseInt(s, 10)` on the character list of `s`: skip leading
whitespace, then parse an optionally signed digit run. -/
def parseIntList (cs : List Char) : Option Int := parseSigned (cs.dropWhile isSpaceChar)

/-- JavaScript `parseInt(s, 10)`. -/
def parseInt (s : String) : Option Int := parseIntList s.data

/-- Big-endian decimal digit characters of a natural number, as produced by
JavaScript `Number.prototype.toString` on a non-negative integer. -/
def natChars (n : Nat) : List Char :=
  if n = 0 then ['0'] else ((Nat.digits 10 n).map digitChar).reverse

/-- Character list of JavaScript `Number.prototype.toString` on an integer:
decimal digits, preceded by `-` for negative values. -/
def numChars (x : Int) : List Char :=
  if x < 0 then '-' :: natChars x.natAbs else natChars x.natAbs

/-- JavaScript `expiryTime.toString()` for an integer number of milliseconds. -/
def numToString (x : Int) : String := ⟨numChars x⟩

/-- The three `localStorage` entries used by `TokenService`
(keys `auth_token`, `refresh_token`, `token_expiry`); every value is
stored as a string. -/
structure Store where
  auth_token : Option String
  refresh_token : Option String
  token_expiry : Option String
  deriving DecidableEq, Repr

/-- TokenService.setToken: store the access token. -/
def setToken (t : String) (s : Store) : Store := { s with auth_token := some t }

/-- TokenService.getToken: read the access token entry. -/
def getToken (s : Store) : Option String := s.auth_token

/-- TokenService.setRefreshToken: store the refresh token. -/
def setRefreshToken (t : String) (s : Store) : Store := { s with refresh_token := some t }

/-- TokenService.getRefreshToken: read the refresh token entry. -/
def getRefreshToken (s : Store) : Option String := s.refresh_token

/-- TokenService.setTokenExpiry: store `expiryTime.toString()`. -/
def setTokenExpiry (x : Int) (s : Store) : Store :=
  { s with token_expiry := some (numToString x) }

/-- TokenService.getTokenExpiry: `expiry ? parseInt(expiry, 10) : null` —
an absent or empty entry is `null`, otherwise the `parseInt` result
(possibly `NaN`). -/
def getTokenExpiry (s : Store) : NumVal :=
  match s.token_expiry with
  | none => .null
  | some e =>
    if e = "" then .null
    else
      match parseInt e with
      | none => .nan
      | some x => .num x

/-- TokenService.isTokenExpired: `if (!expiry) return true; return Date.now() >= expiry`. -/
def isTokenExpired (now : Int) (s : Store) : Bool :=
  let expiry := getTokenExpiry s
  if jsFalsyNum expiry then true else jsGEnum now expiry

/-- TokenService.clearTokens: remove all three entries. -/
def clearTokens (_s : Store) : Store :=
  { auth_token := none, refresh_token := none, token_expiry := none }

/-- TokenService.hasToken: `!!this.getToken()`. -/
def hasToken (s : Store) : Bool := jsTruthyStr (getToken s)

/-- The opaque user identity payload `{ id, email, name }`. -/
structure User where
  id : String
  email : String
  name : String
  deriving DecidableEq, Repr

/-- Body of the login request. -/
structure LoginRequest where
  email : String
  password : String
  deriving DecidableEq, Repr

/-- Body of the signup request. -/
structure SignupRequest where
  email : String
  password : String
  name : String
  deriving DecidableEq, Repr

/-- The auth-response bundle returned by login, signup and refresh. -/
structure LoginResponse where
  token : String
  refreshToken : String
  expiresIn : Int
  user : User
  deriving DecidableEq, Repr

/-- An opaque HTTP error surfaced to a `catchError` handler. -/
abbrev Err := String

/-- Outcome of one HTTP call: the parsed success payload or an error. -/
inductive NetOutcome (α : Type) where
  | success (r : α)
  | failure (e : Err)

/-- Descriptor of one HTTP request issued by the service (all POST,
relative to `/api/auth`), with its body. -/
inductive Req where
  | loginPost (body : LoginRequest)
  | signupPost (body : SignupRequest)
  | logoutPost
  | refreshPost (refreshToken : String)
  | passwordResetRequestPost (email : String)
  | passwordResetConfirmPost (token newPassword : String)
  | changePasswordPost (oldPassword newPassword : String)
  deriving DecidableEq, Repr

/-- State of `AuthService`: the token store plus the two `BehaviorSubject`
streams' current values (`currentUser$` and `authenticated$`). -/
structure AuthState where
  store : Store
  currentUser : Option User
  authenticated : Bool
  deriving DecidableEq, Repr

/-- AuthService.handleAuthResponse: store the access token, the refresh
token and the expiry `Date.now() + expiresIn * 1000` (in that order), then
emit the response's user and `authenticated = true`. -/
def handleAuthResponse (now : Int) (r : LoginResponse) (st : AuthState) : AuthState :=
  { store := setTokenExpiry (now + r.expiresIn * 1000)
      (setRefreshToken r.refreshToken (setToken r.token st.store)),
    currentUser := some r.user,
    authenticated := true }

/-- AuthService.clearAuth: clear the token store, emit `currentUser = null`
and `authenticated = false`. -/
def clearAuth (st : AuthState) : AuthState :=
  { store := clearTokens st.store, currentUser := none, authenticated := false }

/-- AuthService.logout: POST the best-effort logout notification and run
`clearAuth` whether the call succeeds or fails.  Returns the next state and
the requests issued. -/
def logout (o : NetOutcome Unit) (st : AuthState) : AuthState × List Req :=
  match o with
  | .success _ => (clearAuth st, [Req.logoutPost])
  | .failure _ => (clearAuth st, [Req.logoutPost])

/-- AuthService.login: POST the credentials; on success run
`handleAuthResponse`, on failure emit `authenticated = false` and rethrow
the error. -/
def login (now : Int) (req : LoginRequest) (o : NetOutcome LoginResponse) (st : AuthState) :
    AuthState × List Req × Except Err LoginResponse :=
  match o with
  | .success r => (handleAuthResponse now r st, [Req.loginPost req], .ok r)
  | .failure e => ({ st with authenticated := false }, [Req.loginPost req], .error e)

/-- AuthService.signup: POST the signup fields; success and failure are
handled exactly as in `login`. -/
def signup (now : Int) (req : SignupRequest) (o : NetOutcome LoginResponse) (st : AuthState) :
    AuthState × List Req × Except Err LoginResponse :=
  match o with
  | .success r => (handleAuthResponse now r st, [Req.signupPost req], .ok r)
  | .failure e => ({ st with authenticated := false }, [Req.signupPost req], .error e)

/-- Outcomes the network can hand to `refreshToken`: one for the refresh
POST itself and one for the logout notification that `logout` may issue. -/
structure Net where
  refreshOutcome : NetOutcome LoginResponse
  logoutOutcome : NetOutcome Unit

/-- What a call to `refreshToken` hands back to its caller: `of(null)`, the
response, or the rethrown error. -/
inductive RefreshRet where
  | nullRes
  | ok (r : LoginResponse)
  | err (e : Err)

/-- AuthService.refreshToken: with a falsy stored refresh token
(`if (!refreshToken)`) run `logout()` and return `of(null)` without
touching the refresh endpoint; otherwise POST the stored refresh token,
on success run `handleAuthResponse`, on failure run `logout()` and rethrow. -/
def refreshToken (now : Int) (net : Net) (st : AuthState) :
    AuthState × List Req × RefreshRet :=
  match getRefreshToken st.store with
  | none =>
    let (st', reqs) := logout net.logoutOutcome st
    (st', reqs, .nullRes)
  | some rt =>
    if rt = "" then
      let (st', reqs) := logout net.logoutOutcome st
      (st', reqs, .nullRes)
    else
      match net.refreshOutcome with
      | .success r => (handleAuthResponse now r st, [Req.refreshPost rt], .ok r)
      | .failure e =>
        let (st', reqs) := logout net.logoutOutcome st
        (st', Req.refreshPost rt :: reqs, .err e)

/-- AuthService.isAuthenticated: recomputed from the token store,
`hasToken() && !isTokenExpired()`. -/
def isAuthenticated (now : Int) (st : AuthState) : Bool :=
  hasToken st.store && !isTokenExpired now st.store

/-- AuthService.requestPasswordReset: a pass-through POST; the service
state is untouched and the server's response or error goes to the caller. -/
def requestPasswordReset (email : String) (o : NetOutcome String) (st : AuthState) :
    AuthState × List Req × Except Err String :=
  (st, [Req.passwordResetRequestPost email],
    match o with
    | .success r => .ok r
    | .failure e => .error e)

/-- AuthService.resetPassword: a pass-through POST of the reset token and
the new password. -/
def resetPassword (token newPassword : String) (o : NetOutcome String) (st : AuthState) :
    AuthState × List Req × Except Err String :=
  (st, [Req.passwordResetConfirmPost token newPassword],
    match o with
    | .success r => .ok r
    | .failure e => .error e)

/-- AuthService.changePassword: a pass-through POST of the old and new
passwords. -/
def changePassword (oldPassword newPassword : String) (o : NetOutcome String) (st : AuthState) :
    AuthState × List Req × Except Err String :=
  (st, [Req.changePasswordPost oldPassword newPassword],
    match o with
    | .success r => .ok r
    | .failure e => .error e)

/-- A concrete user payload used in concrete instantiations. -/
def sampleUser : User := { id := "u1", email := "u1@example.com", name := "U One" }

/-- A store with no entries. -/
def emptyStore : Store := { auth_token := none, refresh_token := none, token_expiry := none }

/-- A store holding a token, a refresh token and a malformed expiry string. -/
def sampleStore : Store :=
  { auth_token := some "tok", refresh_token := some "ref", token_expiry := some "abc" }

/-- The logged-out service state. -/
def loggedOutState : AuthState :=
  { store := emptyStore, currentUser := none, authenticated := false }

/-- A state whose streams report a logged-in user. -/
def loggedInState : AuthState :=
  { store := sampleStore, currentUser := some sampleUser, authenticated := true }

/-- A concrete network error. -/
def errBoom : Err := "boom"

/-- A concrete environment whose refresh call fails and whose logout call
succeeds. -/
def sampleNet : Net := { refreshOutcome := .failure errBoom, logoutOutcome := .success () }

/-- A concrete auth response. -/
def sampleResponse : LoginResponse :=
  { token := "t2", refreshToken := "r2", expiresIn := 60, user := sampleUser }

/-- A concrete login request body. -/
def sampleLoginReq : LoginRequest := { email := "u1@example.com", password := "pw" }

/-- A concrete signup request body. -/
def sampleSignupReq : SignupRequest :=
  { email := "u1@example.com", password := "pw", name := "U One" }

lemma isDigitChar_digitChar {d : Nat} (h : d < 10) : isDigitChar (digitChar d) = true := by
  interval_cases d <;> decide

lemma charDigitVal_digitChar {d : Nat} (h : d < 10) : charDigitVal (digitChar d) = d := by
  interval_cases d <;> decide

lemma digit_not_space {c : Char} (h : isDigitChar c = true) : isSpaceChar c = false := by
  rcases Bool.eq_false_or_eq_true (isSpaceChar c) with hs | hs
  · exfalso
    unfold isSpaceChar at hs
    simp only [Bool.or_eq_true, beq_iff_eq] at hs
    rcases hs with ((hc | hc) | hc) | hc <;> (subst hc; exact absurd h (by decide))
  · exact hs

lemma digit_ne_minus {c : Char} (h : isDigitChar c = true) : ¬(c = '-') := by
  intro hc; subst hc; exact absurd h (by decide)

lemma digit_ne_plus {c : Char} (h : isDigitChar c = true) : ¬(c = '+') := by
  intro hc; subst hc; exact absurd h (by decide)

lemma natChars_digits (n : Nat) : ∀ c ∈ natChars n, isDigitChar c = true := by
  intro c hc
  unfold natChars at hc
  by_cases hn : n = 0
  · rw [if_pos hn] at hc
    simp only [List.mem_singleton] at hc
    subst hc; decide
  · rw [if_neg hn] at hc
    simp only [List.mem_reverse, List.mem_map] at hc
    obtain ⟨d, hd, rfl⟩ := hc
    exact isDigitChar_digitChar (Nat.digits_lt_base (by norm_num) hd)

lemma natChars_ne_nil (n : Nat) : natChars n ≠ [] := by
  unfold natChars
  by_cases hn : n = 0
  · simp [hn]
  · rw [if_neg hn]
    simp only [ne_eq, List.reverse_eq_nil_iff, List.map_eq_nil_iff]
    exact Nat.digits_ne_nil_iff_ne_zero.mpr hn

lemma foldl_base10 (l : List Nat) (acc : Nat) :
    l.foldl (fun a d => 10 * a + d) acc = acc * 10 ^ l.length + Nat.ofDigits 10 l.reverse := by
  induction l generalizing acc with
  | nil => simp
  | cons d l ih =>
    rw [List.foldl_cons, ih, List.reverse_cons, Nat.ofDigits_append]
    simp only [List.length_cons, List.length_reverse, Nat.ofDigits_singleton, pow_succ]
    ring

lemma foldl_map_digitChar (l : List Nat) (h : ∀ d ∈ l, d < 10) (acc : Nat) :
    (l.map digitChar).foldl (fun a c => 10 * a + charDigitVal c) acc
      = l.foldl (fun a d => 10 * a + d) acc := by
  induction l generalizing acc with
  | nil => rfl
  | cons d l ih =>
    simp only [List.map_cons, List.foldl_cons]
    rw [charDigitVal_digitChar (h d (by simp))]
    exact ih (fun d' hd' => h d' (by simp [hd'])) _

lemma digitsVal_natChars (n : Nat) : digitsVal (natChars n) = n := by
  unfold digitsVal natChars
  by_cases hn : n = 0
  · rw [if_pos hn]; subst hn; decide
  · rw [if_neg hn, ← List.map_reverse]
    rw [foldl_map_digitChar _ (fun d hd => Nat.digits_lt_base (by norm_num)
      (List.mem_reverse.mp hd))]
    rw [foldl_base10]
    simp [Nat.ofDigits_digits]

lemma parseDigits_natChars (n : Nat) : parseDigits (natChars n) = some n := by
  unfold parseDigits
  rw [List.takeWhile_eq_self_iff.mpr (by simpa using natChars_digits n)]
  simp [List.isEmpty_iff, natChars_ne_nil n, digitsVal_natChars]

/-- Round trip between JavaScript `toString` and `parseInt` on integers. -/
theorem parseInt_numToString (x : Int) : parseInt (numToString x) = some x := by
  show parseIntList (numChars x) = some x
  unfold numChars
  by_cases hx : x < 0
  · rw [if_pos hx]
    unfold parseIntList
    rw [List.dropWhile_cons_of_neg (by decide)]
    simp only [parseSigned, if_true, parseDigits_natChars, Option.map_some']
    congr 1
    omega
  · rw [if_neg hx]
    obtain ⟨c, rest, hc⟩ := List.exists_cons_of_ne_nil (natChars_ne_nil x.natAbs)
    have hd : isDigitChar c = true := natChars_digits x.natAbs c (by rw [hc]; simp)
    unfold parseIntList
    rw [hc, List.dropWhile_cons_of_neg (by simp [digit_not_space hd])]
    simp only [parseSigned]
    rw [if_neg (digit_ne_minus hd), if_neg (digit_ne_plus hd), ← hc, parseDigits_natChars]
    simp only [Option.map_some']
    congr 1
    omega

lemma numChars_ne_nil (x : Int) : numChars x ≠ [] := by
  unfold numChars
  by_cases hx : x < 0
  · simp [hx]
  · simp [hx, natChars_ne_nil]

lemma numToString_ne_empty (x : Int) : numToString x ≠ "" := by
  intro h
  exact numChars_ne_nil x (by simpa using congrArg String.data h)

lemma getTokenExpiry_setTokenExpiry (x : Int) (s : Store) :
    getTokenExpiry (setTokenExpiry x s) = NumVal.num x := by
  unfold getTokenExpiry setTokenExpiry
  simp only [if_neg (numToString_ne_empty x), parseInt_numToString]

lemma jsTruthyStr_some {o : Option String} (h : jsTruthyStr o = true) :
    ∃ t, o = some t ∧ ¬(t = "") := by
  cases o with
  | none => simp [jsTruthyStr] at h
  | some t => exact ⟨t, rfl, by simpa [jsTruthyStr] using h⟩

/-- C1 (counterexample): calling `refreshToken()` with no refresh token
stored does issue a network call — the best-effort logout notification
fired by the `logout()` it runs — so the request list is not empty. -/
theorem c1_counterexample :
    (refreshToken 0 sampleNet loggedOutState).2.1 ≠ [] := by decide

/-- C1 (amended): with no refresh token stored, `refreshToken()` issues no
call to the refresh endpoint (only the logout notification of the full
logout it runs), returns the null result immediately, and afterwards
`authenticated == false` and `hasToken() == false`. -/
theorem c1_amended (now : Int) (net : Net) (st : AuthState)
    (h : st.store.refresh_token = none) :
    (refreshToken now net st).2.1 = [Req.logoutPost] ∧
    (refreshToken now net st).2.2 = RefreshRet.nullRes ∧
    (refreshToken now net st).1.authenticated = false ∧
    hasToken (refreshToken now net st).1.store = false := by
  cases hno : net.logoutOutcome <;>
    simp [refreshToken, getRefreshToken, h, logout, hno, clearAuth, hasToken, getToken,
      clearTokens, jsTruthyStr]

/-- C1 (witness): the amended statement at the empty logged-out state. -/
theorem c1_witness :
    (refreshToken 0 sampleNet loggedOutState).2.1 = [Req.logoutPost] ∧
    (refreshToken 0 sampleNet loggedOutState).2.2 = RefreshRet.nullRes ∧
    (refreshToken 0 sampleNet loggedOutState).1.authenticated = false ∧
    hasToken (refreshToken 0 sampleNet loggedOutState).1.store = false :=
  c1_amended 0 sampleNet loggedOutState rfl

/-- C2 (counterexample): a failing `requestPasswordReset` does not reset
the streams to the logged-out state — from a logged-in state the
`authenticated` value stays `true`. -/
theorem c2_counterexample :
    (requestPasswordReset sampleUser.email (NetOutcome.failure errBoom) loggedInState).1.authenticated
      ≠ false := by decide

/-- C2 (amended): login, signup and refresh write through to the token
store and update both streams on success; on failure login and signup only
set `authenticated` to `false`, while refresh runs the full logout; logout
clears the session in both outcomes; the three password operations leave
the state untouched in both outcomes and pass the server's result — the
success payload or the error — through to the caller unchanged. -/
theorem c2_amended (now : Int) (st st2 : AuthState)
    (hrt : jsTruthyStr (getRefreshToken st2.store) = true)
    (lreq : LoginRequest) (sreq : SignupRequest) (r : LoginResponse) (e : Err)
    (lo : NetOutcome Unit) (po : NetOutcome String)
    (email tok oldPw newPw pr : String) :
    (login now lreq (NetOutcome.success r) st).1 = handleAuthResponse now r st ∧
    (login now lreq (NetOutcome.failure e) st).1 = { st with authenticated := false } ∧
    (signup now sreq (NetOutcome.success r) st).1 = handleAuthResponse now r st ∧
    (signup now sreq (NetOutcome.failure e) st).1 = { st with authenticated := false } ∧
    (refreshToken now ⟨NetOutcome.success r, lo⟩ st2).1 = handleAuthResponse now r st2 ∧
    (refreshToken now ⟨NetOutcome.failure e, lo⟩ st2).1 = clearAuth st2 ∧
    (logout lo st).1 = clearAuth st ∧
    (requestPasswordReset email po st).1 = st ∧
    (requestPasswordReset email (NetOutcome.success pr) st).2.2 = Except.ok pr ∧
    (requestPasswordReset email (NetOutcome.failure e) st).2.2 = Except.error e ∧
    (resetPassword tok newPw po st).1 = st ∧
    (resetPassword tok newPw (NetOutcome.success pr) st).2.2 = Except.ok pr ∧
    (resetPassword tok newPw (NetOutcome.failure e) st).2.2 = Except.error e ∧
    (changePassword oldPw newPw po st).1 = st ∧
    (changePassword oldPw newPw (NetOutcome.success pr) st).2.2 = Except.ok pr ∧
    (changePassword oldPw newPw (NetOutcome.failure e) st).2.2 = Except.error e := by
  obtain ⟨rt, hrt_eq, hrt_ne⟩ := jsTruthyStr_some hrt
  have h2 : st2.store.refresh_token = some rt := hrt_eq
  refine ⟨rfl, rfl, rfl, rfl, ?_, ?_, ?_, rfl, rfl, rfl, rfl, rfl, rfl, rfl, rfl, rfl⟩
  · simp [refreshToken, getRefreshToken, h2, hrt_ne]
  · cases hno : lo <;> simp [refreshToken, getRefreshToken, h2, hrt_ne, logout, hno]
  · cases hno : lo <;> simp [logout, hno]

/-- C2 (witness): the amended statement at concrete inputs, with a state
whose store holds a non-empty refresh token. -/
theorem c2_witness :
    (login 0 sampleLoginReq (NetOutcome.success sampleResponse) loggedOutState).1
        = handleAuthResponse 0 sampleResponse loggedOutState ∧
    (login 0 sampleLoginReq (NetOutcome.failure errBoom) loggedOutState).1
        = { loggedOutState with authenticated := false } ∧
    (signup 0 sampleSignupReq (NetOutcome.success sampleResponse) loggedOutState).1
        = handleAuthResponse 0 sampleResponse loggedOutState ∧
    (signup 0 sampleSignupReq (NetOutcome.failure errBoom) loggedOutState).1
        = { loggedOutState with authenticated := false } ∧
    (refreshToken 0 ⟨NetOutcome.success sampleResponse, NetOutcome.success ()⟩ loggedInState).1
        = handleAuthResponse 0 sampleResponse loggedInState ∧
    (refreshToken 0 ⟨NetOutcome.failure errBoom, NetOutcome.success ()⟩ loggedInState).1
        = clearAuth loggedInState ∧
    (logout (NetOutcome.success ()) loggedOutState).1 = clearAuth loggedOutState ∧
    (requestPasswordReset sampleUser.email (NetOutcome.success sampleUser.id) loggedOutState).1
        = loggedOutState ∧
    (requestPasswordReset sampleUser.email (NetOutcome.success sampleUser.name)
        loggedOutState).2.2 = Except.ok sampleUser.name ∧
    (requestPasswordReset sampleUser.email (NetOutcome.failure errBoom) loggedOutState).2.2
        = Except.error errBoom ∧
    (resetPassword sampleUser.email sampleLoginReq.password (NetOutcome.success sampleUser.id)
        loggedOutState).1 = loggedOutState ∧
    (resetPassword sampleUser.email sampleLoginReq.password (NetOutcome.success sampleUser.name)
        loggedOutState).2.2 = Except.ok sampleUser.name ∧
    (resetPassword sampleUser.email sampleLoginReq.password (NetOutcome.failure errBoom)
        loggedOutState).2.2 = Except.error errBoom ∧
    (changePassword sampleLoginReq.password sampleLoginReq.password
        (NetOutcome.success sampleUser.id) loggedOutState).1 = loggedOutState ∧
    (changePassword sampleLoginReq.password sampleLoginReq.password
        (NetOutcome.success sampleUser.name) loggedOutState).2.2
        = Except.ok sampleUser.name ∧
    (changePassword sampleLoginReq.password sampleLoginReq.password
        (NetOutcome.failure errBoom) loggedOutState).2.2 = Except.error errBoom :=
  c2_amended 0 loggedOutState loggedInState (by decide) sampleLoginReq sampleSignupReq
    sampleResponse errBoom (NetOutcome.success ()) (NetOutcome.success sampleUser.id)
    sampleUser.email sampleUser.email sampleLoginReq.password sampleLoginReq.password
    sampleUser.name

/-- C3: after `logout()`, whatever the initial state and whether the
network call succeeds or fails, `authenticated` is `false`, the current
user is absent and all three store entries are absent. -/
theorem c3_logout_clears (st : AuthState) (o : NetOutcome Unit) :
    (logout o st).1.authenticated = false ∧
    (logout o st).1.currentUser = none ∧
    (logout o st).1.store.auth_token = none ∧
    (logout o st).1.store.refresh_token = none ∧
    (logout o st).1.store.token_expiry = none := by
  cases o <;> exact ⟨rfl, rfl, rfl, rfl, rfl⟩

/-- C4: `isTokenExpired()` is `true` when no expiry entry is recorded or
the recorded string is non-numeric, and with a recorded integer expiry it
is `true` exactly when the current time is at least that expiry. -/
theorem c4_isTokenExpired (s : Store) (now : Int) (hnow : 0 ≤ now) :
    (s.token_expiry = none → isTokenExpired now s = true) ∧
    (∀ e, s.token_expiry = some e → parseInt e = none → isTokenExpired now s = true) ∧
    (∀ e x, s.token_expiry = some e → parseInt e = some x →
      (isTokenExpired now s = true ↔ now ≥ x)) := by
  refine ⟨?_, ?_, ?_⟩
  · intro h
    simp [isTokenExpired, getTokenExpiry, h, jsFalsyNum]
  · intro e he hp
    by_cases h0 : e = "" <;>
      simp [isTokenExpired, getTokenExpiry, he, hp, h0, jsFalsyNum]
  · intro e x he hp
    have hne : ¬(e = "") := by
      intro h0
      rw [h0] at hp
      rw [(by decide : parseInt "" = none)] at hp
      simp at hp
    by_cases hx : x = 0
    · subst hx
      simp [isTokenExpired, getTokenExpiry, he, hne, hp, jsFalsyNum]
      omega
    · simp [isTokenExpired, getTokenExpiry, he, hne, hp, jsFalsyNum, hx, jsGEnum]

/-- C4 (witness): the statement at a store holding the malformed expiry
string of `sampleStore` and at time 5. -/
theorem c4_witness :
    (sampleStore.token_expiry = none → isTokenExpired 5 sampleStore = true) ∧
    (∀ e, sampleStore.token_expiry = some e → parseInt e = none →
      isTokenExpired 5 sampleStore = true) ∧
    (∀ e x, sampleStore.token_expiry = some e → parseInt e = some x →
      (isTokenExpired 5 sampleStore = true ↔ 5 ≥ x)) :=
  c4_isTokenExpired sampleStore 5 (by decide)

/-- C5: a successful auth response handled at time `now` stores the access
token, the refresh token and the expiry `now + expiresIn * 1000` — the
writes composed in that order — and emits the response's user and
`authenticated = true`. -/
theorem c5_handleAuthResponse (now : Int) (r : LoginResponse) (st : AuthState) :
    (handleAuthResponse now r st).store
        = setTokenExpiry (now + r.expiresIn * 1000)
            (setRefreshToken r.refreshToken (setToken r.token st.store)) ∧
    getToken (handleAuthResponse now r st).store = some r.token ∧
    getRefreshToken (handleAuthResponse now r st).store = some r.refreshToken ∧
    getTokenExpiry (handleAuthResponse now r st).store = NumVal.num (now + r.expiresIn * 1000) ∧
    (handleAuthResponse now r st).currentUser = some r.user ∧
    (handleAuthResponse now r st).authenticated = true := by
  refine ⟨rfl, rfl, rfl, ?_, rfl, rfl⟩
  exact getTokenExpiry_setTokenExpiry _ _

/-- C6: a failing login or signup leaves the `authenticated` stream at
`false` and propagates the error unchanged to the caller. -/
theorem c6_failure_propagation (now : Int) (lreq : LoginRequest) (sreq : SignupRequest)
    (e : Err) (st : AuthState) :
    (login now lreq (NetOutcome.failure e) st).1.authenticated = false ∧
    (login now lreq (NetOutcome.failure e) st).2.2 = Except.error e ∧
    (signup now sreq (NetOutcome.failure e) st).1.authenticated = false ∧
    (signup now sreq (NetOutcome.failure e) st).2.2 = Except.error e :=
  ⟨rfl, rfl, rfl, rfl⟩

/-- C7: the synchronous `isAuthenticated()` equals
`hasToken() && !isTokenExpired()` recomputed from the token store, and it
does not depend on the cached `authenticated` flag or any other stream
value — two states with the same store agree on it. -/
theorem c7_isAuthenticated (now : Int) (st1 st2 : AuthState) (h : st1.store = st2.store) :
    isAuthenticated now st1 = (hasToken st1.store && !isTokenExpired now st1.store) ∧
    isAuthenticated now st1 = isAuthenticated now st2 := by
  refine ⟨rfl, ?_⟩
  unfold isAuthenticated
  rw [h]

/-- C7 (witness): two states sharing a store but with opposite cached
`authenticated` flags agree on `isAuthenticated()`. -/
theorem c7_witness :
    isAuthenticated 5 loggedInState
        = (hasToken loggedInState.store && !isTokenExpired 5 loggedInState.store) ∧
    isAuthenticated 5 loggedInState
        = isAuthenticated 5 { loggedInState with authenticated := false } :=
  c7_isAuthenticated 5 loggedInState { loggedInState with authenticated := false } rfl

/-- C8: `setTokenExpiry(x)` followed by `getTokenExpiry()` returns exactly
`x`, for every integer number of milliseconds. -/
theorem c8_expiry_roundtrip (x : Int) (s : Store) :
    getTokenExpiry (setTokenExpiry x s) = NumVal.num x :=
  getTokenExpiry_setTokenExpiry x s

/-- C9: after `clearTokens()` no token and no expiry is present; clearing
is idempotent and on an already-empty store it is the identity. -/
theorem c9_clearTokens (s : Store) :
    hasToken (clearTokens s) = false ∧
    getTokenExpiry (clearTokens s) = NumVal.null ∧
    clearTokens (clearTokens s) = clearTokens s ∧
    (s.auth_token = none → s.refresh_token = none → s.token_expiry = none →
      clearTokens s = s) := by
  refine ⟨rfl, rfl, rfl, ?_⟩
  intro h1 h2 h3
  cases s
  simp_all [clearTokens]

/-- C9 (witness): clearing the empty store is the identity. -/
theorem c9_witness : clearTokens emptyStore = emptyStore :=
  (c9_clearTokens emptyStore).2.2.2 rfl rfl rfl

/-- C10: a failing login or signup leaves the three store entries and the
`currentUser` value untouched and only forces `authenticated` to `false`;
in particular a stale non-null user coexists with `authenticated == false`. -/
theorem c10_failure_frame (now : Int) (lreq : LoginRequest) (sreq : SignupRequest)
    (e : Err) (st : AuthState) :
    (login now lreq (NetOutcome.failure e) st).1.store = st.store ∧
    (login now lreq (NetOutcome.failure e) st).1.currentUser = st.currentUser ∧
    (login now lreq (NetOutcome.failure e) st).1.authenticated = false ∧
    (signup now sreq (NetOutcome.failure e) st).1.store = st.store ∧
    (signup now sreq (NetOutcome.failure e) st).1.currentUser = st.currentUser ∧
    (signup now sreq (NetOutcome.failure e) st).1.authenticated = false ∧
    (login now lreq (NetOutcome.failure e) loggedInState).1.currentUser = some sampleUser ∧
    (login now lreq (NetOutcome.failure e) loggedInState).1.authenticated = false :=
  ⟨rfl, rfl, rfl, rfl, rfl, rfl, rfl, rfl⟩
